import Mathlib

/-!
Verification of the AI-Call-Transcript-Analyzer pipeline.

Shallow embedding of the analyzable core:
  - `src/backend/orchestrator.py` : `CallTranscriptAnalyzer` with its three
    workflow nodes (`summary_node`, `sentiment_node`, `save_node`) and the
    top-level `analyze_transcript` that builds and invokes a linear
    langgraph `StateGraph`;
  - `src/backend/data_manager.py` : `DataManager.save_to_csv`;
  - `src/api/routes.py` : the `/analyze-transcript` endpoint handler.

External collaborators (the remote LLM behind the two structured-output
chains, the file system, and the graph machinery's own possible failure)
are modelled as an explicit environment `Env` and a file-system state `FS`
threaded through the definitions.  An inference call is a function from the
transcript to `Option String`: `some s` models the chain returning a
structured result whose single field is `s`; `none` models the call raising
any exception (network, auth, schema mismatch).  The two nodes use two
separate oracle fields because each chain carries its own fixed prompt.
-/

/-- WorkflowState mirrors the TypedDict of the orchestrator: transcript,
summary and sentiment threaded through the graph. -/
structure WorkflowState where
  transcript : String
  summary : String
  sentiment : String
deriving DecidableEq, Repr

/-- Environment of external collaborators: the summary chain, the sentiment
chain, and whether the langgraph machinery itself (StateGraph construction,
compile, invoke) raises an unexpected exception before any node runs. -/
structure Env where
  summaryLLM : String → Option String
  sentimentLLM : String → Option String
  graphError : Bool

/-- File-system state for the CSV log at the fixed path used by
DataManager: `file = none` means the file does not exist, `some rows` is its
current content as a list of rows; `writable = false` models any I/O error
(e.g. permission denied) raised when opening or writing the file. -/
structure FS where
  file : Option (List (List String))
  writable : Bool
deriving DecidableEq, Repr

/-- Lookup in a Python-style string dict modelled as an association list,
as used by `dict.get` / key access. -/
def dictGet (d : List (String × String)) (k : String) : Option String :=
  (d.find? (fun p => p.1 == k)).map (fun p => p.2)

/-- langgraph state merge: a node returns a partial update dict whose keys
overwrite the corresponding channels of the state. -/
def applyUpdate (s : WorkflowState) (u : List (String × String)) : WorkflowState :=
  { transcript := (dictGet u "transcript").getD s.transcript
    summary := (dictGet u "summary").getD s.summary
    sentiment := (dictGet u "sentiment").getD s.sentiment }

/-- summary_node: invoke the summary chain on the state's transcript;
return the structured summary, or the fixed fallback dict
\x7b"summary": "Error generating summary"\x7d if the call raises. -/
def summary_node (env : Env) (state : WorkflowState) : List (String × String) :=
  match env.summaryLLM state.transcript with
  | some result => [("summary", result)]
  | none => [("summary", "Error generating summary")]

/-- sentiment_node: invoke the sentiment chain on the state's transcript;
return the structured sentiment, or the fixed fallback dict
\x7b"sentiment": "Neutral"\x7d if the call raises. -/
def sentiment_node (env : Env) (state : WorkflowState) : List (String × String) :=
  match env.sentimentLLM state.transcript with
  | some result => [("sentiment", result)]
  | none => [("sentiment", "Neutral")]

/-- The fixed CSV fieldnames of DataManager, in order. -/
def csvHeader : List String := ["Transcript", "Summary", "Sentiment"]

/-- The data row save_to_csv writes for a record dict: the three values
looked up via `data.get(key, "")`, in the fixed column order. -/
def csvRow (data : List (String × String)) : List String :=
  [(dictGet data "transcript").getD "",
   (dictGet data "summary").getD "",
   (dictGet data "sentiment").getD ""]

/-- DataManager.save_to_csv: append one row (columns Transcript, Summary,
Sentiment in that order, values via `data.get(key, "")`) to the CSV file,
writing the header row first when the file does not yet exist; returns
`false` instead of raising on any I/O failure. -/
def save_to_csv (fs : FS) (data : List (String × String)) : FS × Bool :=
  if fs.writable then
    match fs.file with
    | none => ({ fs with file := some [csvHeader, csvRow data] }, true)
    | some rows => ({ fs with file := some (rows ++ [csvRow data]) }, true)
  else
    (fs, false)

/-- Persist a list of records sequentially, threading the file system. -/
def saveAll (recs : List (List (String × String))) (fs : FS) : FS :=
  recs.foldl (fun f d => (save_to_csv f d).1) fs

/-- save_node: build a fresh DataManager and save the three state fields;
the node swallows the boolean result (and any exception) and returns an
empty update dict. -/
def save_node (state : WorkflowState) (fs : FS) : List (String × String) × FS :=
  let r := save_to_csv fs [("transcript", state.transcript),
                           ("summary", state.summary),
                           ("sentiment", state.sentiment)]
  ([], r.1)

/-- A langgraph StateGraph after compile: named nodes (each a function from
state and file system to an update dict and the new file system) plus
directed edges between node names, with the sentinel names START and END. -/
structure Graph where
  nodes : List (String × (WorkflowState → FS → List (String × String) × FS))
  edges : List (String × String)

/-- Interpreter for a compiled graph: follow the unique out-edge of the
current node, run the target node, merge its update into the state, and
continue until END; `none` models the invoke raising (dead end, missing
node, or the recursion limit — langgraph's default limit 25 is the fuel). -/
def invokeAux : Nat → Graph → String → WorkflowState → FS → List String →
    Option (WorkflowState × List String) × FS
  | 0, _, _, _, fs, _ => (none, fs)
  | fuel + 1, g, cur, s, fs, tr =>
    match g.edges.find? (fun e => e.1 == cur) with
    | none => (none, fs)
    | some e =>
      if e.2 == "END" then
        (some (s, tr), fs)
      else
        match g.nodes.find? (fun n => n.1 == e.2) with
        | none => (none, fs)
        | some n =>
          let r := n.2 s fs
          invokeAux fuel g e.2 (applyUpdate s r.1) r.2 (tr ++ [e.2])

/-- The workflow graph built by analyze_transcript: three nodes and the
linear edges START → summarize → analyze_sentiment → save_results → END. -/
def buildGraph (env : Env) : Graph :=
  { nodes := [("summarize", fun s fs => (summary_node env s, fs)),
              ("analyze_sentiment", fun s fs => (sentiment_node env s, fs)),
              ("save_results", fun s fs => save_node s fs)]
    edges := [("START", "summarize"),
              ("summarize", "analyze_sentiment"),
              ("analyze_sentiment", "save_results"),
              ("save_results", "END")] }

/-- analyze_transcript: build and invoke the workflow on the initial state
(transcript plus empty summary and sentiment) and return the result dict;
any exception of the graph machinery is caught at the top level and yields
the fully degraded dict with the original transcript.  Besides the dict,
the model returns the file system and the executed node trace. -/
def analyze_transcript (env : Env) (fs : FS) (transcript : String) :
    List (String × String) × FS × List String :=
  if env.graphError then
    ([("transcript", transcript),
      ("summary", "Error processing transcript"),
      ("sentiment", "Neutral")], fs, [])
  else
    match invokeAux 25 (buildGraph env) "START"
        { transcript := transcript, summary := "", sentiment := "" } fs [] with
    | (some r, fs2) =>
      ([("transcript", r.1.transcript),
        ("summary", r.1.summary),
        ("sentiment", r.1.sentiment)], fs2, r.2)
    | (none, fs2) =>
      ([("transcript", transcript),
        ("summary", "Error processing transcript"),
        ("sentiment", "Neutral")], fs2, [])

/-- Python str.strip(): drop leading and trailing whitespace characters. -/
def pyStrip (s : String) : String :=
  String.mk (((s.data.dropWhile Char.isWhitespace).reverse.dropWhile Char.isWhitespace).reverse)

/-- Request schema of the analyze endpoint. -/
structure TranscriptRequest where
  transcript : String
deriving DecidableEq, Repr

/-- Response schema of the analyze endpoint. -/
structure TranscriptResponse where
  transcript : String
  summary : String
  sentiment : String
  success : Bool
deriving DecidableEq, Repr

/-- Outcome of one request to the analyze endpoint: either an
HTTPException with a status code and detail, or a successful response. -/
inductive RouteResult where
  | httpError (statusCode : Nat) (detail : String)
  | response (resp : TranscriptResponse)
deriving DecidableEq, Repr

/-- The POST /analyze-transcript handler: validate the trimmed transcript
(400 when empty or shorter than 10 characters), otherwise run the
orchestrator, raise 500 when the result dict carries status "failed", and
otherwise return the response with success = true.  The boolean records
whether the orchestrator was invoked. -/
def api_analyze_transcript (env : Env) (fs : FS) (request : TranscriptRequest) :
    RouteResult × FS × Bool :=
  if pyStrip request.transcript == "" then
    (.httpError 400 "Transcript cannot be empty", fs, false)
  else if (pyStrip request.transcript).length < 10 then
    (.httpError 400 "Transcript too short for meaningful analysis", fs, false)
  else
    match analyze_transcript env fs request.transcript with
    | (result, fs2, _) =>
      if dictGet result "status" == some "failed" then
        (.httpError 500 "Analysis failed", fs2, true)
      else
        (.response { transcript := (dictGet result "transcript").getD ""
                     summary := (dictGet result "summary").getD ""
                     sentiment := (dictGet result "sentiment").getD ""
                     success := true }, fs2, true)

/-- Value the Summarize step contributes for a transcript: the chain's
structured summary on success, the fixed fallback on failure. -/
def summaryVal (env : Env) (t : String) : String :=
  (env.summaryLLM t).getD "Error generating summary"

/-- Value the Sentiment step contributes for a transcript: the chain's
structured sentiment on success, the fixed fallback on failure. -/
def sentimentVal (env : Env) (t : String) : String :=
  (env.sentimentLLM t).getD "Neutral"

/-- Environment in which both inference chains succeed. -/
def envOk : Env :=
  { summaryLLM := fun _ => some "A short summary of the call."
    sentimentLLM := fun _ => some "Frustrated"
    graphError := false }

/-- Environment in which the graph machinery raises an unexpected error. -/
def envFail : Env :=
  { summaryLLM := fun _ => some "A short summary of the call."
    sentimentLLM := fun _ => some "Frustrated"
    graphError := true }

/-- Environment in which only the summary inference call raises. -/
def envSumFail : Env :=
  { summaryLLM := fun _ => none
    sentimentLLM := fun _ => some "Calm"
    graphError := false }

/-- Environment in which only the sentiment inference call raises. -/
def envSentFail : Env :=
  { summaryLLM := fun _ => some "A fine summary of the call."
    sentimentLLM := fun _ => none
    graphError := false }

/-- Environment in which the summary chain succeeds but returns an empty
string in its structured field. -/
def envEmptySummary : Env :=
  { summaryLLM := fun _ => some ""
    sentimentLLM := fun _ => some "Satisfied"
    graphError := false }

/-- Fresh file system: the CSV log does not exist yet and is writable. -/
def fsEmpty : FS := { file := none, writable := true }

/-- File system on which every write raises an I/O error. -/
def fsReadOnly : FS := { file := none, writable := false }

/-- A sample transcript that passes validation. -/
def sampleTranscript : String :=
  "My internet has been down for two days and no one has called me back."

/-- A sample record dict as built by save_node. -/
def sampleRecord : List (String × String) :=
  [("transcript", sampleTranscript),
   ("summary", "A short summary of the call."),
   ("sentiment", "Frustrated")]

/-- Running the workflow with no graph-machinery error executes exactly the
three nodes in order and produces the result dict with the original
transcript, the Summarize step value and the Sentiment step value, with the
file system updated by one save of that dict. -/
theorem analyze_run_eq (env : Env) (fs : FS) (t : String) (h : env.graphError = false) :
    analyze_transcript env fs t =
      ([("transcript", t),
        ("summary", summaryVal env t),
        ("sentiment", sentimentVal env t)],
       (save_to_csv fs [("transcript", t),
                        ("summary", summaryVal env t),
                        ("sentiment", sentimentVal env t)]).1,
       ["summarize", "analyze_sentiment", "save_results"]) := by
  obtain ⟨f, g, b⟩ := env
  replace h : b = false := h
  subst h
  cases hf : f t <;> cases hg : g t <;>
    simp [analyze_transcript, invokeAux, buildGraph, summary_node, sentiment_node, save_node,
          applyUpdate, dictGet, summaryVal, sentimentVal, hf, hg]

/-- The orchestrator's result dict never carries a "status" key. -/
theorem analyze_status_none (env : Env) (fs : FS) (t : String) :
    dictGet (analyze_transcript env fs t).1 "status" = none := by
  unfold analyze_transcript
  split
  · rfl
  · split <;> rfl

/-- Appending records to an existing CSV file appends exactly their data
rows, with no further header. -/
theorem saveAll_existing (recs : List (List (String × String))) :
    ∀ rows, (saveAll recs { file := some rows, writable := true }).file =
      some (rows ++ recs.map csvRow) := by
  induction recs with
  | nil => intro rows; simp [saveAll]
  | cons d recs ih =>
    intro rows
    have hstep : saveAll (d :: recs) { file := some rows, writable := true } =
        saveAll recs { file := some (rows ++ [csvRow d]), writable := true } := rfl
    rw [hstep, ih]
    simp

/-- A transcript whose stripped length reaches the threshold is non-empty. -/
theorem ne_empty_of_strip_len (t : String) (h : 10 ≤ (pyStrip t).length) : t ≠ "" := by
  intro he
  subst he
  have h0 : (pyStrip "").length = 0 := by decide
  omega

example : 10 ≤ (pyStrip sampleTranscript).length := by decide
example : api_analyze_transcript envFail fsEmpty { transcript := sampleTranscript } =
    (.response { transcript := sampleTranscript, summary := "Error processing transcript",
                 sentiment := "Neutral", success := true }, fsEmpty, true) := by decide
example : dictGet (analyze_transcript envEmptySummary fsEmpty sampleTranscript).1 "summary" = some "" := by decide

/-- Claim C4: if the workflow sequencing itself throws an unexpected error,
analyze_transcript returns exactly the fully degraded record with the
original transcript, summary "Error processing transcript" and sentiment
"Neutral", the file system is untouched and no step is executed. -/
theorem C4_top_level_failure_degraded (env : Env) (fs : FS) (t : String)
    (h : env.graphError = true) :
    analyze_transcript env fs t =
      ([("transcript", t),
        ("summary", "Error processing transcript"),
        ("sentiment", "Neutral")], fs, []) := by
  simp [analyze_transcript, h]

/-- Witness for C4 at a concrete failing environment. -/
theorem C4_top_level_failure_degraded_witness :
    analyze_transcript envFail fsEmpty sampleTranscript =
      ([("transcript", sampleTranscript),
        ("summary", "Error processing transcript"),
        ("sentiment", "Neutral")], fsEmpty, []) :=
  C4_top_level_failure_degraded envFail fsEmpty sampleTranscript rfl

/-- Claim C9: within one run invocation the executed node sequence is
exactly summarize, then analyze_sentiment, then save_results. -/
theorem C9_step_order (env : Env) (fs : FS) (t : String)
    (h : env.graphError = false) :
    (analyze_transcript env fs t).2.2 = ["summarize", "analyze_sentiment", "save_results"] := by
  rw [analyze_run_eq env fs t h]

/-- Witness for C9 at a concrete environment. -/
theorem C9_step_order_witness :
    (analyze_transcript envOk fsEmpty sampleTranscript).2.2 =
      ["summarize", "analyze_sentiment", "save_results"] :=
  C9_step_order envOk fsEmpty sampleTranscript rfl

/-- Claim C5: if the summary inference call raises, the Summarize step
returns exactly the fixed fallback dict, the result summary is exactly
"Error generating summary", and the Sentiment and Persist steps still
execute. -/
theorem C5_summary_fallback_pipeline_continues (env : Env) (fs : FS) (t : String)
    (h : env.graphError = false) (hs : env.summaryLLM t = none) :
    summary_node env { transcript := t, summary := "", sentiment := "" } =
      [("summary", "Error generating summary")] ∧
    dictGet (analyze_transcript env fs t).1 "summary" = some "Error generating summary" ∧
    (analyze_transcript env fs t).2.2 = ["summarize", "analyze_sentiment", "save_results"] := by
  refine ⟨?_, ?_, ?_⟩
  · simp [summary_node, hs]
  · rw [analyze_run_eq env fs t h]
    simp [dictGet, List.find?, summaryVal, hs]
  · rw [analyze_run_eq env fs t h]

/-- Witness for C5 at a concrete environment whose summary chain fails. -/
theorem C5_summary_fallback_pipeline_continues_witness :
    summary_node envSumFail { transcript := sampleTranscript, summary := "", sentiment := "" } =
      [("summary", "Error generating summary")] ∧
    dictGet (analyze_transcript envSumFail fsEmpty sampleTranscript).1 "summary" =
      some "Error generating summary" ∧
    (analyze_transcript envSumFail fsEmpty sampleTranscript).2.2 =
      ["summarize", "analyze_sentiment", "save_results"] :=
  C5_summary_fallback_pipeline_continues envSumFail fsEmpty sampleTranscript rfl rfl

/-- Claim C6: if only the sentiment inference call raises, the result
sentiment is exactly "Neutral" while the result summary is exactly what the
Summarize step produced. -/
theorem C6_sentiment_fallback_summary_unchanged (env : Env) (fs : FS) (t : String)
    (h : env.graphError = false) (hs : env.sentimentLLM t = none) :
    dictGet (analyze_transcript env fs t).1 "sentiment" = some "Neutral" ∧
    dictGet (analyze_transcript env fs t).1 "summary" =
      dictGet (summary_node env { transcript := t, summary := "", sentiment := "" }) "summary" := by
  constructor
  · rw [analyze_run_eq env fs t h]
    simp [dictGet, List.find?, sentimentVal, hs]
  · rw [analyze_run_eq env fs t h]
    cases hsum : env.summaryLLM t <;>
      simp [dictGet, List.find?, summary_node, summaryVal, hsum]

/-- Witness for C6 at a concrete environment whose sentiment chain fails. -/
theorem C6_sentiment_fallback_summary_unchanged_witness :
    dictGet (analyze_transcript envSentFail fsEmpty sampleTranscript).1 "sentiment" =
      some "Neutral" ∧
    dictGet (analyze_transcript envSentFail fsEmpty sampleTranscript).1 "summary" =
      dictGet (summary_node envSentFail
        { transcript := sampleTranscript, summary := "", sentiment := "" }) "summary" :=
  C6_sentiment_fallback_summary_unchanged envSentFail fsEmpty sampleTranscript rfl rfl

/-- Claim C1 (counterexample): a transcript that passes validation on which
the summary chain succeeds with an empty structured field makes
analyze_transcript return a record whose summary field is the empty
string. -/
theorem C1_counterexample_empty_summary :
    10 ≤ (pyStrip sampleTranscript).length ∧
    dictGet (analyze_transcript envEmptySummary fsEmpty sampleTranscript).1 "summary" =
      some "" := by
  decide

/-- Claim C1 (amended): for every transcript that passes validation, if
every successful inference call returns a non-empty string, then the record
returned by analyze_transcript has all three fields non-empty, in the
normal path and in every fallback path. -/
theorem C1_nonempty_fields (env : Env) (fs : FS) (t : String)
    (h0 : 10 ≤ (pyStrip t).length)
    (h1 : ∀ u s, env.summaryLLM u = some s → s ≠ "")
    (h2 : ∀ u s, env.sentimentLLM u = some s → s ≠ "") :
    ∃ a b c,
      dictGet (analyze_transcript env fs t).1 "transcript" = some a ∧ a ≠ "" ∧
      dictGet (analyze_transcript env fs t).1 "summary" = some b ∧ b ≠ "" ∧
      dictGet (analyze_transcript env fs t).1 "sentiment" = some c ∧ c ≠ "" := by
  have ht : t ≠ "" := ne_empty_of_strip_len t h0
  cases hg : env.graphError with
  | true =>
    have e : analyze_transcript env fs t =
        ([("transcript", t),
          ("summary", "Error processing transcript"),
          ("sentiment", "Neutral")], fs, []) := by
      simp [analyze_transcript, hg]
    rw [e]
    exact ⟨t, "Error processing transcript", "Neutral", rfl, ht, rfl, by decide, rfl, by decide⟩
  | false =>
    rw [analyze_run_eq env fs t hg]
    refine ⟨t, summaryVal env t, sentimentVal env t, rfl, ht, rfl, ?_, rfl, ?_⟩
    · cases hsum : env.summaryLLM t with
      | none => unfold summaryVal; rw [hsum]; decide
      | some s => unfold summaryVal; rw [hsum]; exact h1 t s hsum
    · cases hsent : env.sentimentLLM t with
      | none => unfold sentimentVal; rw [hsent]; decide
      | some s => unfold sentimentVal; rw [hsent]; exact h2 t s hsent

/-- Witness for the amended C1 at a concrete succeeding environment. -/
theorem C1_nonempty_fields_witness :
    ∃ a b c,
      dictGet (analyze_transcript envOk fsEmpty sampleTranscript).1 "transcript" = some a ∧ a ≠ "" ∧
      dictGet (analyze_transcript envOk fsEmpty sampleTranscript).1 "summary" = some b ∧ b ≠ "" ∧
      dictGet (analyze_transcript envOk fsEmpty sampleTranscript).1 "sentiment" = some c ∧ c ≠ "" :=
  C1_nonempty_fields envOk fsEmpty sampleTranscript (by decide)
    (fun u s hs => by injection hs with h; subst h; decide)
    (fun u s hs => by injection hs with h; subst h; decide)

/-- Claim C7: persisting one or more records sequentially starting from a
non-existent log file produces exactly one header row followed by the data
rows in order; starting from an existing file no further header is
written. -/
theorem C7_fresh_log_header_then_rows (d : List (String × String))
    (recs : List (List (String × String))) :
    (saveAll (d :: recs) { file := none, writable := true }).file =
      some (csvHeader :: (d :: recs).map csvRow) ∧
    ∀ rows, (saveAll (d :: recs) { file := some rows, writable := true }).file =
      some (rows ++ (d :: recs).map csvRow) := by
  constructor
  · have hstep : saveAll (d :: recs) { file := none, writable := true } =
        saveAll recs { file := some [csvHeader, csvRow d], writable := true } := rfl
    rw [hstep, saveAll_existing]
    rfl
  · exact saveAll_existing (d :: recs)

/-- Witness for C7 at a concrete record list. -/
theorem C7_fresh_log_header_then_rows_witness :
    (saveAll [sampleRecord] { file := none, writable := true }).file =
      some (csvHeader :: [sampleRecord].map csvRow) ∧
    ∀ rows, (saveAll [sampleRecord] { file := some rows, writable := true }).file =
      some (rows ++ [sampleRecord].map csvRow) :=
  C7_fresh_log_header_then_rows sampleRecord []

/-- Claim C8: an I/O failure makes save_to_csv return false with the file
system unchanged, and the record returned by the run still carries exactly
the summary and sentiment computed by the two inference steps — the
response does not depend on the file system at all. -/
theorem C8_persistence_failure_nonfatal (env : Env) (fs : FS) (t : String)
    (data : List (String × String))
    (h : env.graphError = false) (hw : fs.writable = false) :
    save_to_csv fs data = (fs, false) ∧
    dictGet (analyze_transcript env fs t).1 "summary" =
      dictGet (summary_node env { transcript := t, summary := "", sentiment := "" }) "summary" ∧
    dictGet (analyze_transcript env fs t).1 "sentiment" =
      dictGet (sentiment_node env { transcript := t, summary := "", sentiment := "" }) "sentiment" ∧
    (analyze_transcript env fs t).1 =
      (analyze_transcript env { file := fs.file, writable := true } t).1 := by
  refine ⟨?_, ?_, ?_, ?_⟩
  · simp [save_to_csv, hw]
  · rw [analyze_run_eq env fs t h]
    cases hsum : env.summaryLLM t <;>
      simp [dictGet, List.find?, summary_node, summaryVal, hsum]
  · rw [analyze_run_eq env fs t h]
    cases hsent : env.sentimentLLM t <;>
      simp [dictGet, List.find?, sentiment_node, sentimentVal, hsent]
  · rw [analyze_run_eq env fs t h, analyze_run_eq env { file := fs.file, writable := true } t h]

/-- Witness for C8 at a concrete read-only file system. -/
theorem C8_persistence_failure_nonfatal_witness :
    save_to_csv fsReadOnly sampleRecord = (fsReadOnly, false) ∧
    dictGet (analyze_transcript envOk fsReadOnly sampleTranscript).1 "summary" =
      dictGet (summary_node envOk
        { transcript := sampleTranscript, summary := "", sentiment := "" }) "summary" ∧
    dictGet (analyze_transcript envOk fsReadOnly sampleTranscript).1 "sentiment" =
      dictGet (sentiment_node envOk
        { transcript := sampleTranscript, summary := "", sentiment := "" }) "sentiment" ∧
    (analyze_transcript envOk fsReadOnly sampleTranscript).1 =
      (analyze_transcript envOk { file := fsReadOnly.file, writable := true } sampleTranscript).1 :=
  C8_persistence_failure_nonfatal envOk fsReadOnly sampleTranscript sampleRecord rfl rfl

/-- Claim C10: the transcript field of the returned record is the original
input verbatim in the success path and in the degraded path, and in the
success path with a writable file system the appended row's Transcript
column is the original input verbatim. -/
theorem C10_transcript_verbatim (env : Env) (fs : FS) (t : String) :
    dictGet (analyze_transcript env fs t).1 "transcript" = some t ∧
    (env.graphError = false → fs.writable = true →
      ∃ sum sent, (analyze_transcript env fs t).2.1.file =
        some ((fs.file.getD [csvHeader]) ++ [[t, sum, sent]])) := by
  constructor
  · cases hg : env.graphError with
    | true =>
      have e : analyze_transcript env fs t =
          ([("transcript", t),
            ("summary", "Error processing transcript"),
            ("sentiment", "Neutral")], fs, []) := by
        simp [analyze_transcript, hg]
      rw [e]
      rfl
    | false =>
      rw [analyze_run_eq env fs t hg]
      rfl
  · intro hg hw
    rw [analyze_run_eq env fs t hg]
    refine ⟨summaryVal env t, sentimentVal env t, ?_⟩
    cases hf : fs.file with
    | none => simp [save_to_csv, hw, hf, csvRow, csvHeader, dictGet, List.find?]
    | some rows => simp [save_to_csv, hw, hf, csvRow, dictGet, List.find?]

/-- Witness for C10 at a concrete environment and fresh file system. -/
theorem C10_transcript_verbatim_witness :
    dictGet (analyze_transcript envOk fsEmpty sampleTranscript).1 "transcript" =
      some sampleTranscript ∧
    ∃ sum sent, (analyze_transcript envOk fsEmpty sampleTranscript).2.1.file =
      some ((fsEmpty.file.getD [csvHeader]) ++ [[sampleTranscript, sum, sent]]) :=
  ⟨(C10_transcript_verbatim envOk fsEmpty sampleTranscript).1,
   (C10_transcript_verbatim envOk fsEmpty sampleTranscript).2 rfl rfl⟩

/-- Claim C2 (code bug): on a transcript that passes validation, when the
orchestrator's run fails internally, the endpoint returns an HTTP 200
success response carrying the degraded record instead of raising a 500 —
the route's status check never fires because the orchestrator never sets a
status key. -/
theorem C2_run_failure_returns_success :
    api_analyze_transcript envFail fsEmpty { transcript := sampleTranscript } =
      (RouteResult.response { transcript := sampleTranscript,
                              summary := "Error processing transcript",
                              sentiment := "Neutral",
                              success := true }, fsEmpty, true) := by
  decide

/-- Claim C3: the endpoint raises HTTP 400 exactly when the stripped
transcript is shorter than 10 characters, and the orchestrator is invoked
exactly when the stripped transcript has length at least 10. -/
theorem C3_validation_boundary (env : Env) (fs : FS) (req : TranscriptRequest) :
    ((∃ d, (api_analyze_transcript env fs req).1 = RouteResult.httpError 400 d) ↔
      (pyStrip req.transcript).length < 10) ∧
    ((api_analyze_transcript env fs req).2.2 = true ↔
      10 ≤ (pyStrip req.transcript).length) := by
  by_cases h1 : pyStrip req.transcript = ""
  · have e : api_analyze_transcript env fs req =
        (.httpError 400 "Transcript cannot be empty", fs, false) := by
      simp [api_analyze_transcript, h1]
    have hlen : (pyStrip req.transcript).length = 0 := by rw [h1]; rfl
    rw [e, hlen]
    constructor
    · exact ⟨fun _ => by omega, fun _ => ⟨_, rfl⟩⟩
    · constructor
      · intro hf; exact absurd hf (by simp)
      · intro hge; omega
  · by_cases h2 : (pyStrip req.transcript).length < 10
    · have e : api_analyze_transcript env fs req =
          (.httpError 400 "Transcript too short for meaningful analysis", fs, false) := by
        simp [api_analyze_transcript, h1, h2]
      rw [e]
      constructor
      · exact ⟨fun _ => h2, fun _ => ⟨_, rfl⟩⟩
      · constructor
        · intro hf; exact absurd hf (by simp)
        · intro hge; omega
    · have hge : 10 ≤ (pyStrip req.transcript).length := by omega
      have hst := analyze_status_none env fs req.transcript
      rcases hA : analyze_transcript env fs req.transcript with ⟨result, fs2, tr⟩
      have hstatus : dictGet result "status" = none := by
        rw [hA] at hst; exact hst
      have e : api_analyze_transcript env fs req =
          (.response { transcript := (dictGet result "transcript").getD ""
                       summary := (dictGet result "summary").getD ""
                       sentiment := (dictGet result "sentiment").getD ""
                       success := true }, fs2, true) := by
        simp [api_analyze_transcript, h1, h2, hA, hstatus]
      rw [e]
      constructor
      · constructor
        · rintro ⟨d, hd⟩; exact absurd hd (by simp)
        · intro hl; omega
      · exact ⟨fun _ => hge, fun _ => rfl⟩
